import Mathlib

/-!
Shallow embedding of the Telegram notification dispatch worker
(`apps/web_app/telegram/notifications.py`).

The dispatch loop `notifications_broadcasting` pops notification identifiers
from a Redis list (`rpop`), resolves each against the database, renders a
message from `DEFAULT_MESSAGE_TEMPLATE`, attempts delivery via the bot,
handles `TelegramRetryAfter` (sleep + requeue via `lpush`) and
`TelegramAPIError` (swallowed), and logs every resolved attempt in a
`finally` block.

The embedding models:
  * the Redis list with `lpush`/`rpop` on a `List String` whose Lean head is
    the left end of the Redis list;
  * Python truthiness of the popped value (empty bytes are falsy) and of the
    record's `telegram_id` field (`None`, `""` and `0` are falsy);
  * the body of one `while` iteration as `iterBody`, returning the observable
    events (sleeps, pushes, log writes), the resulting queue, whether the
    `continue` path was taken, and whether an unexpected exception propagated;
  * the whole loop as fuel-bounded recursion `notifications_broadcasting`.
-/

namespace Telegram

/-- Python truthiness carrier for the values that can appear as a record's
destination field (`NotificationData.telegram_id`): `None`, a string, or an
integer. -/
inductive PyVal where
  | none
  | str (s : String)
  | int (n : Int)
deriving DecidableEq, Repr

/-- Python truthiness: `None`, `""` and `0` are falsy, everything else truthy. -/
def PyVal.truthy : PyVal → Bool
  | .none => false
  | .str s => s ≠ ""
  | .int n => n ≠ 0

/-- Embedding of `database.models.NotificationData` as read by the loop:
a wallet identifier used for templating and a (possibly absent) Telegram
destination. -/
structure NotificationData where
  wallet_id : String
  telegram_id : PyVal
deriving DecidableEq, Repr

/-- `DEFAULT_MESSAGE_TEMPLATE` from the source. -/
def DEFAULT_MESSAGE_TEMPLATE : String :=
  "Warning. Your health ratio is too low for wallet_id {wallet_id}"

/-- Replace every occurrence of `pat` in a character list by `w`, with fuel
bounding the recursion (fuel equal to the list length suffices for a
non-empty pattern). -/
def replaceFuel (pat w : List Char) : Nat → List Char → List Char
  | 0, cs => cs
  | _ + 1, [] => []
  | fuel + 1, c :: rest =>
    if (c :: rest).take pat.length = pat then
      w ++ replaceFuel pat w fuel ((c :: rest).drop pat.length)
    else
      c :: replaceFuel pat w fuel rest

/-- Python `template.format(wallet_id=w)` for a template whose only field is
`wallet_id`: substitute `w` for each `{wallet_id}` placeholder. -/
def formatWalletId (template w : String) : String :=
  ⟨replaceFuel "{wallet_id}".data w.data template.length template.data⟩

/-- Outcome of `bot.send_message`: success, `exceptions.TelegramRetryAfter`
carrying its `retry_after` delay, some other `exceptions.TelegramAPIError`,
or an unexpected exception outside the caught hierarchy. -/
inductive SendResult where
  | success
  | retryAfter (d : ℚ)
  | apiError
  | otherError
deriving DecidableEq, Repr

/-- Observable side effects of the loop: `asyncio.sleep` calls, `lpush`
operations on the Redis queue, and `_log_send_message` writes (which record
the notification id, the rendered text and the `is_succesfully` flag in a
`TelegramLog` row). -/
inductive Event where
  | sleep (d : ℚ)
  | push (id : String)
  | log (id text : String) (success : Bool)
deriving DecidableEq, Repr

/-- Whether an event is a log write. -/
def Event.isLog : Event → Bool
  | .log _ _ _ => true
  | _ => false

/-- The loop's collaborators: `db_connector.get_object NotificationData ·`
and `bot.send_message` (taking the destination and the text). -/
structure Env where
  get_object : String → Option NotificationData
  send_message : PyVal → String → SendResult

/-- Redis `LPUSH`: prepend at the left end of the list. -/
def lpush (v : String) (l : List String) : List String := v :: l

/-- Redis `RPOP`: remove and return the right end of the list, or `none`
when the list is empty. -/
def rpop (l : List String) : Option String × List String :=
  (l.getLast?, l.dropLast)

/-- Python truthiness of the value returned by `redis_client.rpop`: the
popped bytes are falsy exactly when empty. -/
def idTruthy (s : String) : Bool := s ≠ ""

/-- Result of one iteration body (source lines 78-104): the events emitted,
the queue after any requeue, whether `continue` was executed (missing
record), and whether an uncaught exception propagated out of the `try`. -/
structure IterResult where
  events : List Event
  queue : List String
  continued : Bool
  raised : Bool
deriving DecidableEq, Repr

/-- One iteration body of `notifications_broadcasting` after a truthy pop:
resolve the id (`continue` silently when no record), render the text, send
when `telegram_id` is truthy, handle `TelegramRetryAfter` by sleeping
`retry_after` and re-`lpush`-ing the id, swallow other `TelegramAPIError`s,
and log the attempt in the `finally` block in every resolved case. -/
def iterBody (env : Env) (notification_id : String) (q : List String) :
    IterResult :=
  match env.get_object notification_id with
  | Option.none => ⟨[], q, true, false⟩
  | Option.some notification =>
    let text := formatWalletId DEFAULT_MESSAGE_TEMPLATE notification.wallet_id
    if notification.telegram_id.truthy then
      match env.send_message notification.telegram_id text with
      | .success =>
          ⟨[.log notification_id text true], q, false, false⟩
      | .retryAfter d =>
          ⟨[.sleep d, .push notification_id, .log notification_id text false],
            lpush notification_id q, false, false⟩
      | .apiError =>
          ⟨[.log notification_id text false], q, false, false⟩
      | .otherError =>
          ⟨[.log notification_id text false], q, false, true⟩
    else
      ⟨[.log notification_id text false], q, false, false⟩

/-- How an invocation of the loop ends: a normal return (`while` condition
false or `break`), an uncaught exception, or fuel exhaustion of the model. -/
inductive RunResult where
  | finished (trace : List Event) (queue : List String)
  | raised (trace : List Event) (queue : List String)
  | outOfFuel (trace : List Event) (queue : List String)
deriving DecidableEq, Repr

/-- Fuel-bounded embedding of the `while` loop of
`notifications_broadcasting(is_infinity, sleep_time)`: pop from the right of
the Redis list, exit when the popped value is falsy (empty list or empty
bytes), otherwise run the body; `continue` recurses immediately, `break`
fires when `is_infinity` is false, and otherwise the loop sleeps
`sleep_time` before the next pop. -/
def notifications_broadcasting (env : Env) (is_infinity : Bool)
    (sleep_time : ℚ) : Nat → List String → List Event → RunResult
  | 0, q, tr => .outOfFuel tr q
  | fuel + 1, q, tr =>
    match rpop q with
    | (Option.none, q') => .finished tr q'
    | (Option.some notification_id, q') =>
      if idTruthy notification_id then
        let r := iterBody env notification_id q'
        if r.raised then .raised (tr ++ r.events) r.queue
        else if r.continued then
          notifications_broadcasting env is_infinity sleep_time fuel
            r.queue (tr ++ r.events)
        else if is_infinity then
          notifications_broadcasting env is_infinity sleep_time fuel
            r.queue (tr ++ r.events ++ [.sleep sleep_time])
        else .finished (tr ++ r.events) r.queue
      else .finished tr q'

/-- Popping an empty Redis list yields the empty signal. -/
theorem rpop_nil : rpop [] = (Option.none, []) := rfl

/-- Popping a list whose right end is `a` yields `a` and consumes it. -/
theorem rpop_concat (q : List String) (a : String) :
    rpop (q ++ [a]) = (Option.some a, q) := by
  simp [rpop]

end Telegram

namespace Telegram

/-- C1: the spec claims that in Continuous mode (`is_infinity = true`) the
dispatch loop never returns, sleeping the idle-poll interval and retrying
when a pop reports the queue empty. The code instead exits the `while` loop
as soon as `rpop` returns a falsy value, so on an empty queue the call
returns at once with no sleep and no retry, in Continuous mode too. This
theorem evaluates the embedded code at the failing input: an empty queue in
Continuous mode makes `notifications_broadcasting` return. -/
theorem C1_continuous_mode_returns_on_empty_queue (env : Env) (st : ℚ)
    (fuel : Nat) (tr : List Event) :
    notifications_broadcasting env true st (fuel + 1) [] tr
      = .finished tr [] := by
  simp [notifications_broadcasting, rpop]

/-- C4: a popped identifier that resolves to no record is silently skipped:
the iteration emits no event (no log write, no push), the queue stays at its
post-pop state (the item is consumed, not re-pushed), and the loop proceeds
directly to the next iteration, in either mode, with trace and queue exactly
as if the iteration had not happened. -/
theorem C4_missing_record_silently_skipped (env : Env) (inf : Bool)
    (st : ℚ) (fuel : Nat) (q : List String) (tr : List Event) (id : String)
    (hid : idTruthy id = true) (h : env.get_object id = Option.none) :
    iterBody env id q = ⟨[], q, true, false⟩
    ∧ notifications_broadcasting env inf st (fuel + 1) (q ++ [id]) tr
        = notifications_broadcasting env inf st fuel q tr := by
  constructor
  · simp [iterBody, h]
  · simp [notifications_broadcasting, rpop_concat, hid, iterBody, h]

/-- C4 witness: a concrete run of the skip path. -/
theorem C4_missing_record_silently_skipped_witness :
    idTruthy "a" = true
    ∧ (fun (_ : String) => (Option.none : Option NotificationData)) "a"
        = Option.none
    ∧ (iterBody ⟨fun _ => Option.none, fun _ _ => .success⟩ "a" ["b"]
          = ⟨[], ["b"], true, false⟩
        ∧ notifications_broadcasting
            ⟨fun _ => Option.none, fun _ _ => .success⟩ true 1 (3 + 1)
            (["b"] ++ ["a"]) []
          = notifications_broadcasting
              ⟨fun _ => Option.none, fun _ _ => .success⟩ true 1 3 ["b"] []) :=
  ⟨by decide, rfl,
    C4_missing_record_silently_skipped
      ⟨fun _ => Option.none, fun _ _ => .success⟩ true 1 3 ["b"] [] "a"
      (by decide) rfl⟩

/-- C9: a falsy popped value (the empty string, the truthiness of empty
bytes) ends the loop in both modes exactly like the empty-queue signal: the
`while` condition fails, the falsy identifier has been consumed by the pop,
and nothing is resolved, logged, re-pushed or slept — the returned trace is
unchanged and the queue has merely advanced past the falsy head. -/
theorem C9_falsy_head_ends_loop_like_empty (env : Env) (inf : Bool)
    (st : ℚ) (fuel : Nat) (q : List String) (tr : List Event) (id : String)
    (hid : idTruthy id = false) :
    notifications_broadcasting env inf st (fuel + 1) (q ++ [id]) tr
      = .finished tr q
    ∧ notifications_broadcasting env inf st (fuel + 1) [] tr
      = .finished tr [] := by
  constructor
  · simp [notifications_broadcasting, rpop_concat, hid]
  · simp [notifications_broadcasting, rpop]

/-- C9 witness: a queue headed by the empty string, in Continuous mode. -/
theorem C9_falsy_head_ends_loop_like_empty_witness :
    idTruthy "" = false
    ∧ (notifications_broadcasting
          ⟨fun _ => Option.none, fun _ _ => .success⟩ true 1 (3 + 1)
          (["b"] ++ [""]) []
        = .finished [] ["b"]
      ∧ notifications_broadcasting
          ⟨fun _ => Option.none, fun _ _ => .success⟩ true 1 (3 + 1) [] []
        = .finished [] []) :=
  ⟨by decide,
    C9_falsy_head_ends_loop_like_empty
      ⟨fun _ => Option.none, fun _ _ => .success⟩ true 1 3 ["b"] [] ""
      (by decide)⟩

/-- C2 counterexample: the claim says SinglePass mode terminates after one
full iteration regardless of outcome, so at most one pop is processed per
invocation. On the concrete queue `["b", "a"]` (so `"a"` is popped first) in
which `"a"` resolves to no record, the `continue` path skips both the
`break` and the sleep: the run pops a second time, processes `"b"`, logs it
and drains the queue — two pops in one SinglePass invocation, contradicting
the claim (which would leave `"b"` enqueued and nothing logged). -/
theorem C2_single_pass_counterexample :
    notifications_broadcasting
      ⟨fun id => if id = "b" then Option.some ⟨"w1", PyVal.int 7⟩
                 else Option.none,
        fun _ _ => SendResult.success⟩
      false 1 5 ["b", "a"] []
      = .finished
          [Event.log "b"
            "Warning. Your health ratio is too low for wallet_id w1" true]
          []
    ∧ notifications_broadcasting
        ⟨fun id => if id = "b" then Option.some ⟨"w1", PyVal.int 7⟩
                   else Option.none,
          fun _ _ => SendResult.success⟩
        false 1 5 ["b", "a"] []
      ≠ .finished [] ["b"] := by
  constructor
  · decide
  · decide

/-- C2 amended: the iteration-end behaviour holds only for iterations whose
identifier resolves to a record (and whose delivery raised no unexpected
exception): then SinglePass mode breaks out of the loop after that
iteration, and Continuous mode sleeps `sleep_time` before the next pop.
Iterations whose identifier resolves to no record `continue` immediately,
skipping both the break and the sleep, so SinglePass mode may process
several pops. -/
theorem C2_resolved_iteration_breaks_or_sleeps (env : Env) (st : ℚ)
    (fuel : Nat) (q : List String) (tr : List Event) (id : String)
    (n : NotificationData) (hid : idTruthy id = true)
    (hdb : env.get_object id = Option.some n)
    (hnr : (iterBody env id q).raised = false) :
    notifications_broadcasting env false st (fuel + 1) (q ++ [id]) tr
      = .finished (tr ++ (iterBody env id q).events) (iterBody env id q).queue
    ∧ notifications_broadcasting env true st (fuel + 1) (q ++ [id]) tr
      = notifications_broadcasting env true st fuel (iterBody env id q).queue
          (tr ++ (iterBody env id q).events ++ [.sleep st]) := by
  have hc : (iterBody env id q).continued = false := by
    unfold iterBody
    rw [hdb]
    by_cases ht : n.telegram_id.truthy
    · cases hs : env.send_message n.telegram_id
          (formatWalletId DEFAULT_MESSAGE_TEMPLATE n.wallet_id) <;>
        simp [ht, hs]
    · simp [ht]
  constructor
  · simp only [notifications_broadcasting, rpop_concat, hid, if_true]
    rw [hnr, hc]
    simp
  · simp only [notifications_broadcasting, rpop_concat, hid, if_true]
    rw [hnr, hc]
    simp

/-- C2 amended witness: a concrete resolved iteration, in both modes. -/
theorem C2_resolved_iteration_breaks_or_sleeps_witness :
    idTruthy "x" = true
    ∧ (fun (_ : String) =>
          Option.some (NotificationData.mk "w" (PyVal.int 1))) "x"
        = Option.some (NotificationData.mk "w" (PyVal.int 1))
    ∧ (iterBody ⟨fun _ => Option.some ⟨"w", PyVal.int 1⟩,
          fun _ _ => .success⟩ "x" []).raised = false
    ∧ (notifications_broadcasting
          ⟨fun _ => Option.some ⟨"w", PyVal.int 1⟩, fun _ _ => .success⟩
          false 1 (1 + 1) ([] ++ ["x"]) []
        = .finished
            ([] ++ (iterBody ⟨fun _ => Option.some ⟨"w", PyVal.int 1⟩,
                fun _ _ => .success⟩ "x" []).events)
            (iterBody ⟨fun _ => Option.some ⟨"w", PyVal.int 1⟩,
                fun _ _ => .success⟩ "x" []).queue
      ∧ notifications_broadcasting
          ⟨fun _ => Option.some ⟨"w", PyVal.int 1⟩, fun _ _ => .success⟩
          true 1 (1 + 1) ([] ++ ["x"]) []
        = notifications_broadcasting
            ⟨fun _ => Option.some ⟨"w", PyVal.int 1⟩, fun _ _ => .success⟩
            true 1 1
            (iterBody ⟨fun _ => Option.some ⟨"w", PyVal.int 1⟩,
                fun _ _ => .success⟩ "x" []).queue
            ([] ++ (iterBody ⟨fun _ => Option.some ⟨"w", PyVal.int 1⟩,
                fun _ _ => .success⟩ "x" []).events ++ [.sleep 1])) :=
  ⟨by decide, rfl, by decide,
    C2_resolved_iteration_breaks_or_sleeps
      ⟨fun _ => Option.some ⟨"w", PyVal.int 1⟩, fun _ _ => .success⟩
      1 1 [] [] "x" ⟨"w", PyVal.int 1⟩ (by decide) rfl (by decide)⟩

/-- C3: a throttle response with delay `d` makes the iteration sleep `d`
before its next queue operation (the requeue push, which the event order
places strictly after the sleep), push the same identifier back exactly once
(`lpush` onto the queue tail, leaving the rest of the queue untouched), and
write a single success=false log entry for the attempt. -/
theorem C3_throttle_sleeps_requeues_and_logs_failure
    (db : String → Option NotificationData)
    (send : PyVal → String → SendResult) (id : String) (q : List String)
    (n : NotificationData) (d : ℚ) (hdb : db id = Option.some n)
    (ht : n.telegram_id.truthy = true)
    (hs : send n.telegram_id
        (formatWalletId DEFAULT_MESSAGE_TEMPLATE n.wallet_id)
      = .retryAfter d) :
    iterBody ⟨db, send⟩ id q
      = ⟨[.sleep d, .push id,
          .log id (formatWalletId DEFAULT_MESSAGE_TEMPLATE n.wallet_id)
            false],
          lpush id q, false, false⟩ := by
  simp [iterBody, hdb, ht, hs]

/-- C3 witness: a concrete throttled delivery with delay 2. -/
theorem C3_throttle_sleeps_requeues_and_logs_failure_witness :
    (fun (_ : String) =>
        Option.some (NotificationData.mk "w" (PyVal.int 5))) "a"
      = Option.some (NotificationData.mk "w" (PyVal.int 5))
    ∧ (PyVal.int 5).truthy = true
    ∧ (fun (_ : PyVal) (_ : String) => SendResult.retryAfter 2)
        (PyVal.int 5) (formatWalletId DEFAULT_MESSAGE_TEMPLATE "w")
      = .retryAfter 2
    ∧ iterBody
        ⟨fun _ => Option.some ⟨"w", PyVal.int 5⟩,
          fun _ _ => SendResult.retryAfter 2⟩ "a" ["b"]
      = ⟨[.sleep 2, .push "a",
          .log "a" (formatWalletId DEFAULT_MESSAGE_TEMPLATE "w") false],
          lpush "a" ["b"], false, false⟩ :=
  ⟨rfl, by decide, rfl,
    C3_throttle_sleeps_requeues_and_logs_failure
      (fun _ => Option.some ⟨"w", PyVal.int 5⟩)
      (fun _ _ => SendResult.retryAfter 2) "a" ["b"]
      ⟨"w", PyVal.int 5⟩ 2 rfl (by decide) rfl⟩

/-- C5: every popped identifier that resolves to a record produces exactly
one log entry, associating the identifier, the rendered template text and
the success flag — in every case: successful delivery, throttle, permanent
API error, missing destination, and even when the delivery call raised an
unexpected exception (the `finally` block still writes the log before the
exception propagates). -/
theorem C5_resolved_record_logged_exactly_once (env : Env) (id : String)
    (q : List String) (n : NotificationData)
    (h : env.get_object id = Option.some n) :
    ∃ s : Bool,
      List.filter Event.isLog (iterBody env id q).events
        = [Event.log id
            (formatWalletId DEFAULT_MESSAGE_TEMPLATE n.wallet_id) s] := by
  unfold iterBody
  rw [h]
  by_cases ht : n.telegram_id.truthy
  · cases hs : env.send_message n.telegram_id
        (formatWalletId DEFAULT_MESSAGE_TEMPLATE n.wallet_id)
    · exact ⟨true, by simp [ht, hs, Event.isLog]⟩
    · exact ⟨false, by simp [ht, hs, Event.isLog]⟩
    · exact ⟨false, by simp [ht, hs, Event.isLog]⟩
    · exact ⟨false, by simp [ht, hs, Event.isLog]⟩
  · exact ⟨false, by simp [ht, Event.isLog]⟩

/-- C5 witness: a concrete resolved identifier whose delivery raised an
unexpected exception still yields exactly one log entry. -/
theorem C5_resolved_record_logged_exactly_once_witness :
    (fun (_ : String) =>
        Option.some (NotificationData.mk "w" (PyVal.int 5))) "a"
      = Option.some (NotificationData.mk "w" (PyVal.int 5))
    ∧ ∃ s : Bool,
        List.filter Event.isLog
            (iterBody
              ⟨fun _ => Option.some ⟨"w", PyVal.int 5⟩,
                fun _ _ => SendResult.otherError⟩ "a" []).events
          = [Event.log "a"
              (formatWalletId DEFAULT_MESSAGE_TEMPLATE "w") s] :=
  ⟨rfl,
    C5_resolved_record_logged_exactly_once
      ⟨fun _ => Option.some ⟨"w", PyVal.int 5⟩,
        fun _ _ => SendResult.otherError⟩ "a" []
      ⟨"w", PyVal.int 5⟩ rfl⟩

/-- C6: a delivery failing with a non-throttle delivery error (a
`TelegramAPIError` other than `TelegramRetryAfter`) is swallowed: the
iteration neither raises nor requeues, its only event is a success=false log
entry, and (second conjunct) a SinglePass run over that item returns
normally to its caller — the loop does not abort on the item's failure. -/
theorem C6_api_error_swallowed_logged_no_requeue
    (db : String → Option NotificationData)
    (send : PyVal → String → SendResult) (st : ℚ) (fuel : Nat)
    (q : List String) (tr : List Event) (id : String)
    (n : NotificationData) (hid : idTruthy id = true)
    (hdb : db id = Option.some n) (ht : n.telegram_id.truthy = true)
    (hs : send n.telegram_id
        (formatWalletId DEFAULT_MESSAGE_TEMPLATE n.wallet_id)
      = .apiError) :
    iterBody ⟨db, send⟩ id q
      = ⟨[.log id (formatWalletId DEFAULT_MESSAGE_TEMPLATE n.wallet_id)
            false], q, false, false⟩
    ∧ notifications_broadcasting ⟨db, send⟩ false st (fuel + 1)
        (q ++ [id]) tr
      = .finished
          (tr ++ [.log id
            (formatWalletId DEFAULT_MESSAGE_TEMPLATE n.wallet_id) false])
          q := by
  have h1 : iterBody ⟨db, send⟩ id q
      = ⟨[.log id (formatWalletId DEFAULT_MESSAGE_TEMPLATE n.wallet_id)
            false], q, false, false⟩ := by
    simp [iterBody, hdb, ht, hs]
  refine ⟨h1, ?_⟩
  simp only [notifications_broadcasting, rpop_concat, hid, if_true]
  rw [h1]
  simp

/-- C6 witness: a concrete permanent delivery error in a SinglePass run. -/
theorem C6_api_error_swallowed_logged_no_requeue_witness :
    idTruthy "a" = true
    ∧ (fun (_ : String) =>
          Option.some (NotificationData.mk "w" (PyVal.int 5))) "a"
        = Option.some (NotificationData.mk "w" (PyVal.int 5))
    ∧ (PyVal.int 5).truthy = true
    ∧ (fun (_ : PyVal) (_ : String) => SendResult.apiError)
        (PyVal.int 5) (formatWalletId DEFAULT_MESSAGE_TEMPLATE "w")
      = .apiError
    ∧ (iterBody
          ⟨fun _ => Option.some ⟨"w", PyVal.int 5⟩,
            fun _ _ => SendResult.apiError⟩ "a" ["b"]
        = ⟨[.log "a" (formatWalletId DEFAULT_MESSAGE_TEMPLATE "w") false],
            ["b"], false, false⟩
      ∧ notifications_broadcasting
          ⟨fun _ => Option.some ⟨"w", PyVal.int 5⟩,
            fun _ _ => SendResult.apiError⟩ false 1 (2 + 1)
          (["b"] ++ ["a"]) []
        = .finished
            ([] ++ [.log "a" (formatWalletId DEFAULT_MESSAGE_TEMPLATE "w")
                false])
            ["b"]) :=
  ⟨by decide, rfl, by decide, rfl,
    C6_api_error_swallowed_logged_no_requeue
      (fun _ => Option.some ⟨"w", PyVal.int 5⟩)
      (fun _ _ => SendResult.apiError) 1 2 ["b"] [] "a"
      ⟨"w", PyVal.int 5⟩ (by decide) rfl (by decide) rfl⟩

/-- C7: a resolved record lacking a destination address
(`telegram_id = None`) triggers no delivery attempt — the result is the same
for every possible sender, which the universally quantified `send` expresses
— and the iteration's only event is a single success=false log entry; the
queue is untouched (no requeue) and nothing is raised. -/
theorem C7_missing_destination_logged_false_no_send
    (db : String → Option NotificationData) (id : String)
    (q : List String) (n : NotificationData)
    (hdb : db id = Option.some n) (hnone : n.telegram_id = PyVal.none) :
    ∀ send : PyVal → String → SendResult,
      iterBody ⟨db, send⟩ id q
        = ⟨[.log id (formatWalletId DEFAULT_MESSAGE_TEMPLATE n.wallet_id)
              false], q, false, false⟩ := by
  intro send
  simp [iterBody, hdb, hnone, PyVal.truthy]

/-- C7 witness: a concrete destination-less record, instantiated with a
sender that would raise if it were ever consulted. -/
theorem C7_missing_destination_logged_false_no_send_witness :
    (fun (_ : String) =>
        Option.some (NotificationData.mk "w" PyVal.none)) "a"
      = Option.some (NotificationData.mk "w" PyVal.none)
    ∧ (NotificationData.mk "w" PyVal.none).telegram_id = PyVal.none
    ∧ iterBody
        ⟨fun _ => Option.some ⟨"w", PyVal.none⟩,
          fun _ _ => SendResult.otherError⟩ "a" ["b"]
      = ⟨[.log "a" (formatWalletId DEFAULT_MESSAGE_TEMPLATE "w") false],
          ["b"], false, false⟩ :=
  ⟨rfl, rfl,
    C7_missing_destination_logged_false_no_send
      (fun _ => Option.some ⟨"w", PyVal.none⟩) "a" ["b"]
      ⟨"w", PyVal.none⟩ rfl rfl (fun _ _ => SendResult.otherError)⟩

/-- C8: a successful delivery produces exactly one log entry with
success=true whose text is the fixed template instantiated with the
record's wallet identifier, and the queue is untouched — the identifier is
not re-pushed. -/
theorem C8_success_logged_true_with_rendered_template
    (db : String → Option NotificationData)
    (send : PyVal → String → SendResult) (id : String) (q : List String)
    (n : NotificationData) (hdb : db id = Option.some n)
    (ht : n.telegram_id.truthy = true)
    (hs : send n.telegram_id
        (formatWalletId DEFAULT_MESSAGE_TEMPLATE n.wallet_id)
      = .success) :
    iterBody ⟨db, send⟩ id q
      = ⟨[.log id (formatWalletId DEFAULT_MESSAGE_TEMPLATE n.wallet_id)
            true], q, false, false⟩ := by
  simp [iterBody, hdb, ht, hs]

/-- C8 witness: a concrete successful delivery; the logged text is the
template with `{wallet_id}` substituted. -/
theorem C8_success_logged_true_with_rendered_template_witness :
    (fun (_ : String) =>
        Option.some (NotificationData.mk "w1" (PyVal.int 7))) "a"
      = Option.some (NotificationData.mk "w1" (PyVal.int 7))
    ∧ (PyVal.int 7).truthy = true
    ∧ (fun (_ : PyVal) (_ : String) => SendResult.success)
        (PyVal.int 7) (formatWalletId DEFAULT_MESSAGE_TEMPLATE "w1")
      = .success
    ∧ iterBody
        ⟨fun _ => Option.some ⟨"w1", PyVal.int 7⟩,
          fun _ _ => SendResult.success⟩ "a" []
      = ⟨[.log "a"
            "Warning. Your health ratio is too low for wallet_id w1" true],
          [], false, false⟩ :=
  ⟨rfl, by decide, rfl,
    C8_success_logged_true_with_rendered_template
      (fun _ => Option.some ⟨"w1", PyVal.int 7⟩)
      (fun _ _ => SendResult.success) "a" []
      ⟨"w1", PyVal.int 7⟩ rfl (by decide) rfl⟩

/-- C10: deliverability is decided by Python truthiness of the destination
field, not only by its absence: for a record whose `telegram_id` is any
falsy value — `None`, the empty string, or zero — the destination is falsy,
no delivery is attempted (the result is independent of the sender), and the
attempt is logged with success=false exactly as in the missing-destination
case. -/
theorem C10_falsy_destination_behaves_as_missing
    (db : String → Option NotificationData) (id : String)
    (q : List String) (n : NotificationData)
    (hdb : db id = Option.some n)
    (hfalsy : n.telegram_id = PyVal.none ∨ n.telegram_id = PyVal.str ""
      ∨ n.telegram_id = PyVal.int 0) :
    n.telegram_id.truthy = false
    ∧ ∀ send : PyVal → String → SendResult,
        iterBody ⟨db, send⟩ id q
          = ⟨[.log id (formatWalletId DEFAULT_MESSAGE_TEMPLATE n.wallet_id)
                false], q, false, false⟩ := by
  have ht : n.telegram_id.truthy = false := by
    rcases hfalsy with h | h | h <;> simp [h, PyVal.truthy]
  exact ⟨ht, fun send => by simp [iterBody, hdb, ht]⟩

/-- C10 witness: a record whose destination is the integer zero, with a
sender that would raise if consulted. -/
theorem C10_falsy_destination_behaves_as_missing_witness :
    (fun (_ : String) =>
        Option.some (NotificationData.mk "w" (PyVal.int 0))) "a"
      = Option.some (NotificationData.mk "w" (PyVal.int 0))
    ∧ ((NotificationData.mk "w" (PyVal.int 0)).telegram_id = PyVal.none
        ∨ (NotificationData.mk "w" (PyVal.int 0)).telegram_id = PyVal.str ""
        ∨ (NotificationData.mk "w" (PyVal.int 0)).telegram_id = PyVal.int 0)
    ∧ (NotificationData.mk "w" (PyVal.int 0)).telegram_id.truthy = false
    ∧ iterBody
        ⟨fun _ => Option.some ⟨"w", PyVal.int 0⟩,
          fun _ _ => SendResult.otherError⟩ "a" []
      = ⟨[.log "a" (formatWalletId DEFAULT_MESSAGE_TEMPLATE "w") false],
          [], false, false⟩ :=
  ⟨rfl, Or.inr (Or.inr rfl),
    (C10_falsy_destination_behaves_as_missing
      (fun _ => Option.some ⟨"w", PyVal.int 0⟩) "a" []
      ⟨"w", PyVal.int 0⟩ rfl (Or.inr (Or.inr rfl))).1,
    (C10_falsy_destination_behaves_as_missing
      (fun _ => Option.some ⟨"w", PyVal.int 0⟩) "a" []
      ⟨"w", PyVal.int 0⟩ rfl (Or.inr (Or.inr rfl))).2
      (fun _ _ => SendResult.otherError)⟩

end Telegram
